import Mathlib

/-
Verification development for the combine-result-images image pipeline
(src/src/ImageProcessor.tsx and src/unnamed/part_002).

The source file concatenates successive revisions of one React component.
We refer to them as:
  revision A: src/src/ImageProcessor.tsx lines 1-682   (single mask slot, OCR, i18n)
  revision B: src/src/ImageProcessor.tsx lines 683-1271 (latest: two mask slots,
              ImageBitmap decode, worker kept in a ref, montage loop with yield)
  revision C: src/src/ImageProcessor.tsx lines 1272-1641 (oldest, no auto modes)
  part 002:   src/unnamed/part_002                     (two mask slots, per-slot OCR)

Numeric model: JS numbers are embedded as Int or Nat.  The fractional
constants of the detector (0.299/0.587/0.114, the threshold 40, the
aspect limit 2.1 and the factors 0.95 and 0.4) are handled by exact
integer scaling: luminance is computed times 1000, so the threshold
comparison becomes > 40000, and floor((w - 2.1 h)/2) becomes
(10 w - 21 h)/20 in integer division, which is the same rational number
floored.  Pixel components from getImageData are integers 0..255, so this
is exact; the double rounding of the real code (relative error about
1e-16) cannot flip any of the strict comparisons at the inputs evaluated
here.  An out-of-bounds read of a pixel array yields undefined, so a
luminance comparison against it is a NaN comparison and evaluates to
false; such reads are embedded as Option.none and the edge test is false
on none.
-/

/-- A pixel rectangle, `x`/`y` origin plus width and height.  Width and
height are Int because the detector computes them by subtraction and the
source nowhere forces them nonnegative. -/
structure Rect where
  x : Int
  y : Int
  width : Int
  height : Int
deriving DecidableEq, Repr

/-- One RGBA sample as read from getImageData (alpha is never used by the
luminance code, so it is omitted).  Components are integers 0..255. -/
structure RGB where
  r : Int
  g : Int
  b : Int
deriving DecidableEq, Repr

/-- A decoded bitmap: dimensions plus a total pixel function.  The code
only ever samples the center row and center column. -/
structure Image where
  w : Nat
  h : Nat
  pix : Nat → Nat → RGB

/-- Revision B line 913 (and revision A line 206): luminance
0.299 R + 0.587 G + 0.114 B, scaled by 1000 to stay in integers. -/
def getLuminance (c : RGB) : Int := 299 * c.r + 587 * c.g + 114 * c.b

/-- The single center pixel row extracted at revision B lines 916-926:
hData holds row floor(h/2); an index past the row is an undefined read,
embedded as none. -/
def hLum (img : Image) (x : Nat) : Option Int :=
  if x < img.w then some (getLuminance (img.pix x (img.h / 2))) else none

/-- The single center pixel column extracted at revision B lines 928-939:
vData holds column floor(w/2). -/
def vLum (img : Image) (y : Nat) : Option Int :=
  if y < img.h then some (getLuminance (img.pix (img.w / 2) y)) else none

/-- The edge test of revision B lines 945 and 952: the luminance step
between two samples exceeds THRESHOLD = 40 (scaled: 40000).  A comparison
against an out-of-bounds (NaN) sample is false. -/
def edgeAt (a b : Option Int) : Bool :=
  match a, b with
  | some a, some b => |a - b| > 40000
  | _, _ => false

/-- Revision B line 943: when the aspect ratio w/h exceeds
ASPECT_LIMIT = 2.1, the horizontal scans skip a symmetric band of
floor((w - 2.1 h)/2) + 1 pixels at each end; otherwise no skip.  The JS
condition w/h > 2.1 is rendered as 21 h < 10 w, which agrees with the
float semantics for every w, h (including h = 0, where w/h is Infinity or
NaN), and the floored band is (10 w - 21 h)/20 in Nat division. -/
def getBandSkipX (img : Image) : Nat :=
  if 21 * img.h < 10 * img.w then (10 * img.w - 21 * img.h) / 20 + 1 else 0

/-- Revision B lines 941-948.  isRight = false: x runs from skipX+1 while
x < w, testing the step to the left neighbor; isRight = true: x runs from
w - skipX - 2 down while x > 0, testing the step to the right neighbor.
Returns the first index whose step exceeds the threshold. -/
def findHEdge (img : Image) (isRight : Bool) : Option Nat :=
  if isRight then
    ((List.range' 1 (img.w - getBandSkipX img - 2)).reverse).find?
      (fun x => edgeAt (hLum img x) (hLum img (x + 1)))
  else
    (List.range' (getBandSkipX img + 1) (img.w - (getBandSkipX img + 1))).find?
      (fun x => edgeAt (hLum img x) (hLum img (x - 1)))

/-- Revision B lines 950-955.  isBottom = false: y runs from 1 while
y < h; isBottom = true: y runs from floor(0.95 h) = 19 h / 20 down while
y > 0, testing the step to the sample below (which is an out-of-bounds
NaN read when y + 1 = h, making that test false). -/
def findVEdge (img : Image) (isBottom : Bool) : Option Nat :=
  if isBottom then
    ((List.range' 1 (19 * img.h / 20)).reverse).find?
      (fun y => edgeAt (vLum img y) (vLum img (y + 1)))
  else
    (List.range' 1 (img.h - 1)).find?
      (fun y => edgeAt (vLum img y) (vLum img (y - 1)))

/-- Revision B lines 957-970: the detector succeeds iff all four scans
find an edge, and then returns the rectangle
(left, top, right - left + 1, bottom - top + 1); otherwise it fails. -/
def performAutoCrop (img : Image) : Option Rect :=
  match findHEdge img false, findHEdge img true, findVEdge img false, findVEdge img true with
  | some l, some r, some t, some b =>
      some ⟨(l : Int), (t : Int), (r : Int) - l + 1, (b : Int) - t + 1⟩
  | _, _, _, _ => none

-- Concrete bitmaps used to evaluate the detector.

/-- A 4 x 4 bitmap whose center row and center column each contain exactly
one luminance step (dark outside the bright lower-right quadrant). -/
def imgStep4 : Image :=
  ⟨4, 4, fun x y => if 2 ≤ x ∧ 2 ≤ y then ⟨255, 255, 255⟩ else ⟨0, 0, 0⟩⟩

/-- A 6 x 6 bitmap of the same shape, used for the plausibility-filter
counterexample. -/
def imgStep6 : Image :=
  ⟨6, 6, fun x y => if 3 ≤ x ∧ 3 ≤ y then ⟨255, 255, 255⟩ else ⟨0, 0, 0⟩⟩

/-- A 3 x 3 constant bitmap: no scan can find an edge. -/
def imgFlat3 : Image :=
  ⟨3, 3, fun _ _ => ⟨7, 7, 7⟩⟩

/-- The settings record of revision B (ImageSettings interface, lines
688-714).  Numeric fields are Int (the handlers of revision B never
produce NaN, see claim C10); colors are strings. -/
structure ImageSettings where
  colCount : Int
  offsetX : Int
  offsetY : Int
  bgColor : String
  quality : Int
  webpMethod : Int
  cropX : Int
  cropY : Int
  cropWidth : Int
  cropHeight : Int
  maskEnabled : Bool
  maskX : Int
  maskY : Int
  maskWidth : Int
  maskHeight : Int
  maskColor : String
  cropAuto : Bool
  maskAuto : Bool
  selfMaskEnabled : Bool
  selfMaskAuto : Bool
  selfMaskX : Int
  selfMaskY : Int
  selfMaskWidth : Int
  selfMaskHeight : Int
  selfMaskColor : String
deriving DecidableEq, Repr

/-- The hardcoded defaults of revision B (lines 721-747). -/
def defaultsB : ImageSettings :=
  { colCount := 4, offsetX := 8, offsetY := 8, bgColor := "#000000",
    quality := 80, webpMethod := 6,
    cropX := 31, cropY := 117, cropWidth := 1538, cropHeight := 665,
    maskEnabled := false, maskX := 0, maskY := 0,
    maskWidth := 100, maskHeight := 100, maskColor := "#FFFFFF",
    cropAuto := true, maskAuto := true,
    selfMaskEnabled := false, selfMaskAuto := true,
    selfMaskX := 0, selfMaskY := 0, selfMaskWidth := 100,
    selfMaskHeight := 100, selfMaskColor := "#FFFFFF" }

/-- A record parsed from the persisted JSON: every schema field may be
present or absent.  Fields absent from the saved record fall back to the
defaults under the object spread of line 749. -/
structure SavedSettings where
  colCount : Option Int := none
  offsetX : Option Int := none
  offsetY : Option Int := none
  bgColor : Option String := none
  quality : Option Int := none
  webpMethod : Option Int := none
  cropX : Option Int := none
  cropY : Option Int := none
  cropWidth : Option Int := none
  cropHeight : Option Int := none
  maskEnabled : Option Bool := none
  maskX : Option Int := none
  maskY : Option Int := none
  maskWidth : Option Int := none
  maskHeight : Option Int := none
  maskColor : Option String := none
  cropAuto : Option Bool := none
  maskAuto : Option Bool := none
  selfMaskEnabled : Option Bool := none
  selfMaskAuto : Option Bool := none
  selfMaskX : Option Int := none
  selfMaskY : Option Int := none
  selfMaskWidth : Option Int := none
  selfMaskHeight : Option Int := none
  selfMaskColor : Option String := none
deriving DecidableEq, Repr

/-- Revision B lines 748-750 (and part 002 lines 66-68): the loaded
settings are the field-wise spread of the parsed record over the
defaults. -/
def mergeLoadB (s : SavedSettings) : ImageSettings :=
  { colCount := s.colCount.getD defaultsB.colCount,
    offsetX := s.offsetX.getD defaultsB.offsetX,
    offsetY := s.offsetY.getD defaultsB.offsetY,
    bgColor := s.bgColor.getD defaultsB.bgColor,
    quality := s.quality.getD defaultsB.quality,
    webpMethod := s.webpMethod.getD defaultsB.webpMethod,
    cropX := s.cropX.getD defaultsB.cropX,
    cropY := s.cropY.getD defaultsB.cropY,
    cropWidth := s.cropWidth.getD defaultsB.cropWidth,
    cropHeight := s.cropHeight.getD defaultsB.cropHeight,
    maskEnabled := s.maskEnabled.getD defaultsB.maskEnabled,
    maskX := s.maskX.getD defaultsB.maskX,
    maskY := s.maskY.getD defaultsB.maskY,
    maskWidth := s.maskWidth.getD defaultsB.maskWidth,
    maskHeight := s.maskHeight.getD defaultsB.maskHeight,
    maskColor := s.maskColor.getD defaultsB.maskColor,
    cropAuto := s.cropAuto.getD defaultsB.cropAuto,
    maskAuto := s.maskAuto.getD defaultsB.maskAuto,
    selfMaskEnabled := s.selfMaskEnabled.getD defaultsB.selfMaskEnabled,
    selfMaskAuto := s.selfMaskAuto.getD defaultsB.selfMaskAuto,
    selfMaskX := s.selfMaskX.getD defaultsB.selfMaskX,
    selfMaskY := s.selfMaskY.getD defaultsB.selfMaskY,
    selfMaskWidth := s.selfMaskWidth.getD defaultsB.selfMaskWidth,
    selfMaskHeight := s.selfMaskHeight.getD defaultsB.selfMaskHeight,
    selfMaskColor := s.selfMaskColor.getD defaultsB.selfMaskColor }

/-- JSON serialization of a current-schema settings value: every field is
written out.  Records of integers, booleans and strings survive
JSON.stringify followed by JSON.parse unchanged, so the parsed record has
every field present with the same value. -/
def serializeB (m : ImageSettings) : SavedSettings :=
  { colCount := some m.colCount, offsetX := some m.offsetX,
    offsetY := some m.offsetY, bgColor := some m.bgColor,
    quality := some m.quality, webpMethod := some m.webpMethod,
    cropX := some m.cropX, cropY := some m.cropY,
    cropWidth := some m.cropWidth, cropHeight := some m.cropHeight,
    maskEnabled := some m.maskEnabled, maskX := some m.maskX,
    maskY := some m.maskY, maskWidth := some m.maskWidth,
    maskHeight := some m.maskHeight, maskColor := some m.maskColor,
    cropAuto := some m.cropAuto, maskAuto := some m.maskAuto,
    selfMaskEnabled := some m.selfMaskEnabled,
    selfMaskAuto := some m.selfMaskAuto, selfMaskX := some m.selfMaskX,
    selfMaskY := some m.selfMaskY, selfMaskWidth := some m.selfMaskWidth,
    selfMaskHeight := some m.selfMaskHeight,
    selfMaskColor := some m.selfMaskColor }

/-- The three-way mask mode of the specification (section 3): manual,
ratio-derived or OCR-derived.  Modelled from the spec: no revision of the
source declares such an enum; this type exists only to state claim C6. -/
inductive SpecMaskMode
  | manualMode
  | ratioMode
  | ocrMode
deriving DecidableEq, Repr

/-- Revision B lines 962-975: on success the detected rectangle is copied
into the pending settings patch; on failure cropAuto is switched off
(line 968) and no rectangle is produced. -/
def autoCropStep (img : Image) (s : ImageSettings) : ImageSettings × Option Rect :=
  match performAutoCrop img with
  | some r =>
      ({ s with cropX := r.x, cropY := r.y,
                cropWidth := r.width, cropHeight := r.height }, some r)
  | none => ({ s with cropAuto := false }, none)

/-- An OCR word bounding box in full-image pixel coordinates (after the
sub-region offset of revision B line 999 has been added back). -/
structure BBox where
  x0 : Int
  y0 : Int
  x1 : Int
  y1 : Int
deriving DecidableEq, Repr

/-- Revision B lines 1015-1017 (enemy / right slot): the selected word
box is padded by 5 on the left and top, 5 below, and the width runs from
the padded left edge to the right edge of the full image (width W).  No
coordinate is clamped to the crop rectangle. -/
def resolveEnemyMask (wImg : Int) (b : BBox) : Rect :=
  ⟨b.x0 - 5, b.y0 - 5, wImg - (b.x0 - 5), (b.y1 - b.y0) + 10⟩

/-- Revision B lines 1024-1026 (self / left slot): same padding, width
runs to the image center line (centerX = floor(W/2), line 988). -/
def resolveSelfMask (centerX : Int) (b : BBox) : Rect :=
  ⟨b.x0 - 5, b.y0 - 5, centerX - (b.x0 - 5), (b.y1 - b.y0) + 10⟩

/-- A rectangle lies inside another (the containment the spec asserts for
resolved masks relative to the crop rectangle). -/
def rectInside (m r : Rect) : Prop :=
  r.x ≤ m.x ∧ r.y ≤ m.y ∧
  m.x + m.width ≤ r.x + r.width ∧ m.y + m.height ≤ r.y + r.height

instance (m r : Rect) : Decidable (rectInside m r) := by
  unfold rectInside; infer_instance

/-- A bounding box lies inside a rectangle. -/
def bboxInside (b : BBox) (r : Rect) : Prop :=
  r.x ≤ b.x0 ∧ r.y ≤ b.y0 ∧ b.x1 ≤ r.x + r.width ∧ b.y1 ≤ r.y + r.height

instance (b : BBox) (r : Rect) : Decidable (bboxInside b r) := by
  unfold bboxInside; infer_instance

/-- Trivially empty: nonpositive width or height. -/
def rectTrivEmpty (m : Rect) : Prop := m.width ≤ 0 ∨ m.height ≤ 0

instance (m : Rect) : Decidable (rectTrivEmpty m) := by
  unfold rectTrivEmpty; infer_instance

/-- A detected OCR word: its text and bounding box. -/
structure Word where
  text : String
  bbox : BBox
deriving DecidableEq, Repr

/-- True when the character list starts with L v . digit, the letters
case-insensitive: the anchor of the pattern Lv.[digits] used by every
revision (the regex is unanchored, trailing digits beyond the first do
not matter for a match). -/
def lvAt : List Char → Bool
  | c1 :: c2 :: c3 :: c4 :: _ =>
      (c1 = 'L' || c1 = 'l') && (c2 = 'V' || c2 = 'v') && c3 = '.' && c4.isDigit
  | _ => false

/-- The unanchored match of /Lv\.[0-9]+/i: some position of the text
starts with the pattern (revision B line 1009, part 002 line 377,
revision A line 368). -/
def containsLvList : List Char → Bool
  | [] => false
  | c :: cs => lvAt (c :: cs) || containsLvList cs

def matchesLv (s : String) : Bool := containsLvList s.data

/-- The reduce of revision B lines 1013 and 1022 and part 002 line 382:
keep the accumulator when its y0 is strictly smaller, so the result is a
word of minimal y0 (on ties the later element wins).  none on an empty
list, as reduce of an empty array throws. -/
def reduceTopmost : List Word → Option Word
  | [] => none
  | w :: ws => some (ws.foldl (fun p c => if p.bbox.y0 < c.bbox.y0 then p else c) w)

/-- The reduce of part 002 line 397: keep the accumulator when its y0 is
strictly larger, so the result is a word of maximal y0. -/
def reduceBottommost : List Word → Option Word
  | [] => none
  | w :: ws => some (ws.foldl (fun p c => if p.bbox.y0 > c.bbox.y0 then p else c) w)

/-- Part 002 lines 377-382 (enemy / right slot): filter the Lv words to
the right half above 0.4 of the image height (the 0.4 factor scaled:
5 y0 < 2 H, and the center test 2 x0 > W renders x0 > W/2 exactly), then
take the topmost. -/
def enemyTarget002 (ws : List Word) (wImg hImg : Int) : Option Word :=
  reduceTopmost (((ws.filter (fun w => matchesLv w.text)).filter
    (fun w => 2 * w.bbox.x0 > wImg && 5 * w.bbox.y0 < 2 * hImg)))

/-- Part 002 lines 395-397 (self / left slot): filter the Lv words to the
left half (no vertical bound), then reduce with the flipped comparison,
selecting the bottommost. -/
def selfTarget002 (ws : List Word) (wImg : Int) : Option Word :=
  reduceBottommost ((ws.filter (fun w => matchesLv w.text)).filter
    (fun w => 2 * w.bbox.x0 < wImg))

/-- Revision B lines 1021-1022 (self / left slot of the latest revision):
left of centerX = floor(W/2), topmost. -/
def selfTargetB (ws : List Word) (centerX : Int) : Option Word :=
  reduceTopmost ((ws.filter (fun w => matchesLv w.text)).filter
    (fun w => w.bbox.x0 < centerX))

/-- Revision B lines 1012-1013 (enemy / right slot of the latest
revision): right of centerX, topmost. -/
def enemyTargetB (ws : List Word) (centerX : Int) : Option Word :=
  reduceTopmost ((ws.filter (fun w => matchesLv w.text)).filter
    (fun w => w.bbox.x0 > centerX))

/-- The per-run geometry the montage assembler of revision B works from:
the resolved crop rectangle (origin and size) and the layout settings
(lines 1055-1071 read cropRect and finalSettings). -/
structure MontageParams where
  cropX : Nat
  cropY : Nat
  cropW : Nat
  cropH : Nat
  colCount : Nat
  offX : Nat
  offY : Nat

/-- Math.ceil(n / k) for natural n and k ≥ 1 (revision B line 1056). -/
def ceilDiv (n k : Nat) : Nat := (n + k - 1) / k

/-- Revision B line 1055: montage width =
cropW * colCount + offsetX * (colCount + 1). -/
def montageWidth (p : MontageParams) : Nat :=
  p.cropW * p.colCount + p.offX * (p.colCount + 1)

/-- Revision B line 1056: montage height =
ceil(n / colCount) * cropH + offsetY * (ceil(n / colCount) + 1). -/
def montageHeight (p : MontageParams) (n : Nat) : Nat :=
  ceilDiv n p.colCount * p.cropH + p.offY * (ceilDiv n p.colCount + 1)

/-- Revision B line 1069: the column of tile i is i % colCount. -/
def tileCol (p : MontageParams) (i : Nat) : Nat := i % p.colCount

/-- Revision B line 1068: the row of tile i is floor(i / colCount). -/
def tileRow (p : MontageParams) (i : Nat) : Nat := i / p.colCount

/-- Pixel x of a tile in column c (revision B line 1070). -/
def posX (p : MontageParams) (c : Nat) : Nat := p.offX + c * (p.cropW + p.offX)

/-- Pixel y of a tile in row r (revision B line 1071). -/
def posY (p : MontageParams) (r : Nat) : Nat := p.offY + r * (p.cropH + p.offY)

/-- Revision B line 1070: drawX of tile i. -/
def tileX (p : MontageParams) (i : Nat) : Nat := posX p (tileCol p i)

/-- Revision B line 1071: drawY of tile i. -/
def tileY (p : MontageParams) (i : Nat) : Nat := posY p (tileRow p i)

/-- Colors are abstract pixel values (a packed RGB number). -/
abbrev Color := Nat

/-- The content of the reusable scratch canvas in the branch of revision B
lines 1073-1084 (both masks disabled): tile pixel (x, y) is source pixel
(cropX + x, cropY + y). -/
def tileContentNoMask (p : MontageParams) (src : Nat → Nat → Color) :
    Nat → Nat → Color :=
  fun x y => src (p.cropX + x) (p.cropY + y)

/-- Point (x, y) of the montage lies inside the region tile i is blitted
to. -/
def inTileRegion (p : MontageParams) (i x y : Nat) : Prop :=
  tileX p i ≤ x ∧ x < tileX p i + p.cropW ∧ tileY p i ≤ y ∧ y < tileY p i + p.cropH

instance (p : MontageParams) (i x y : Nat) : Decidable (inTileRegion p i x y) := by
  unfold inTileRegion; infer_instance

/-- drawImage of a cropW x cropH canvas at (tileX i, tileY i) onto the
montage (revision B lines 1084 and 1114): pixels inside the region take
the tile content, all others are untouched. -/
def blitTile (p : MontageParams) (i : Nat) (content : Nat → Nat → Color)
    (c : Nat → Nat → Color) : Nat → Nat → Color :=
  fun x y =>
    if inTileRegion p i x y then content (x - tileX p i) (y - tileY p i) else c x y

/-- The montage loop of revision B lines 1063-1117 in the branch with both
masks disabled: background fill, then one blit per image in index order.
srcs i is the decoded bitmap of image i as a pixel function. -/
def montageNoMask (p : MontageParams) (srcs : Nat → Nat → Nat → Color)
    (n : Nat) (bg : Color) : Nat → Nat → Color :=
  (List.range n).foldl
    (fun c i => blitTile p i (tileContentNoMask p (srcs i)) c)
    (fun _ _ => bg)

/-- fillRect on a canvas addressed with Int coordinates (used for the
revision A per-image compositor, whose fixed rectangle may have negative
local coordinates).  JS fillRect paints the half-open box and paints
nothing when width or height is nonpositive, which the strict upper
bounds encode. -/
def fillRect (r : Rect) (color : Color) (c : Int → Int → Color) :
    Int → Int → Color :=
  fun x y =>
    if r.x ≤ x ∧ x < r.x + r.width ∧ r.y ≤ y ∧ y < r.y + r.height then color
    else c x y

/-- Revision A line 437 (also revision C line 1411): the fixed decoration
rectangle, in tile-local coordinates relative to the crop origin. -/
def drawRectA (cropX cropY : Int) : Rect :=
  ⟨1308 - cropX, 209 - cropY, 1566 - 1308, 247 - 209⟩

/-- Revision A line 437: the fixed fill color of the decoration
rectangle. -/
def drawColorA : Color := 0xffe1d8

/-- Revision A lines 439-472 (processSingleImage): the temp canvas holds
the source with the mask optionally filled at absolute coordinates; the
final tile is the crop of the temp canvas, after which the fixed
decoration rectangle is always filled (lines 469-470), independent of the
mask flag. -/
def tileRevA (maskEnabled : Bool) (maskRect : Rect) (maskColor : Color)
    (cropX cropY : Int) (src : Int → Int → Color) : Int → Int → Color :=
  fillRect (drawRectA cropX cropY) drawColorA
    (fun x y =>
      (if maskEnabled then fillRect maskRect maskColor src else src)
        (cropX + x) (cropY + y))

/-- Encoded output blob; its contents are irrelevant to the lifecycle
model. -/
abbrev Blob := Unit

/-- Behavior of canvas.toBlob at revision B line 1119: the callback fires
with a blob, fires with null, or never fires.  The code passes the
callback straight to the promise resolver and sets no timer. -/
inductive EncodeBeh
  | callback (b : Option Blob)
  | neverFires
deriving DecidableEq, Repr

/-- How one run of processImages (revision B lines 864-1161) ends.
fatalDecode / fatalLoop / fatalEncode are the paths on which the thrown
error reaches the top-level catch (lines 1129-1147): alert, best-effort
cleanup, page reload. -/
inductive RunOutcome
  | validationFail
  | cropFallback
  | ocrFallback
  | fatalDecode
  | fatalLoop
  | fatalEncode
  | runSuccess
deriving DecidableEq, Repr

/-- The outcome reached the top-level catch. -/
def RunOutcome.isFatal : RunOutcome → Bool
  | .fatalDecode => true
  | .fatalLoop => true
  | .fatalEncode => true
  | _ => false

/-- The environment of one run of revision B processImages: the settings
flags consulted by its guards and the behavior of the external
collaborators (decoder, edge scans, OCR engine, montage loop, encoder),
plus whether a worker from an earlier run is still in workerRef. -/
structure RunEnv where
  cropAuto : Bool
  maskEnabled : Bool
  maskAuto : Bool
  selfMaskEnabled : Bool
  selfMaskAuto : Bool
  validateOk : Bool
  decodeOk : Bool
  cropFound : Bool
  ocrThrows : Bool
  loopThrows : Bool
  encode : EncodeBeh
  workerLive0 : Bool
deriving DecidableEq, Repr

/-- Revision B line 903: a first-image decode is needed when any auto
detection is requested. -/
def needFirst (e : RunEnv) : Bool :=
  e.cropAuto || (e.maskEnabled && e.maskAuto) || (e.selfMaskEnabled && e.selfMaskAuto)

/-- Revision B line 977: the OCR step runs when either slot is in auto
mode and enabled. -/
def maskNeeded (e : RunEnv) : Bool :=
  (e.maskEnabled && e.maskAuto) || (e.selfMaskEnabled && e.selfMaskAuto)

/-- What one run did: its outcome (none when it hangs forever), whether it
created a worker, how many times worker.terminate was called during the
run, and whether a worker is still live in workerRef afterwards. -/
structure RunResult where
  outcome : Option RunOutcome
  workerCreated : Bool
  terminations : Nat
  workerLiveAfter : Bool
deriving DecidableEq, Repr

/-- The worker- and encode-relevant trace of one run of revision B
processImages (lines 864-1161):
* validation failure returns before any resource is touched (lines 886-888);
* a first-image decode failure throws (line 860) and is caught at the top
  level, which calls workerRef.current?.terminate() (line 1136) - that
  terminates a worker only if one was left over from an earlier run -
  and reloads the page;
* an auto-crop failure returns after patching settings (lines 972-975),
  touching no worker;
* the OCR step lazily creates a worker if workerRef is empty (lines
  979-984); a recognize error is caught inside performAutoMask (line
  1031), which returns false and the run returns (lines 1033-1036) with
  the worker still live and not terminated;
* a montage-loop error and a null encode result throw to the top-level
  catch, which terminates the live worker once and reloads;
* when toBlob never fires the awaited promise never settles: the run has
  no outcome and nothing is terminated;
* on success the worker is left live in workerRef for reuse (it is only
  ever torn down by the unmount effect at lines 765-771 or a later fatal
  run). -/
def runProcessImagesB (e : RunEnv) : RunResult :=
  if !e.validateOk then
    ⟨some .validationFail, false, 0, e.workerLive0⟩
  else if needFirst e && !e.decodeOk then
    ⟨some .fatalDecode, false, if e.workerLive0 then 1 else 0, false⟩
  else if e.cropAuto && !e.cropFound then
    ⟨some .cropFallback, false, 0, e.workerLive0⟩
  else
    if maskNeeded e && e.ocrThrows then
      ⟨some .ocrFallback, maskNeeded e && !e.workerLive0, 0,
        e.workerLive0 || maskNeeded e⟩
    else if e.loopThrows then
      ⟨some .fatalLoop, maskNeeded e && !e.workerLive0,
        if e.workerLive0 || maskNeeded e then 1 else 0, false⟩
    else
      match e.encode with
      | .neverFires =>
          ⟨none, maskNeeded e && !e.workerLive0, 0, e.workerLive0 || maskNeeded e⟩
      | .callback none =>
          ⟨some .fatalEncode, maskNeeded e && !e.workerLive0,
            if e.workerLive0 || maskNeeded e then 1 else 0, false⟩
      | .callback (some _) =>
          ⟨some .runSuccess, maskNeeded e && !e.workerLive0, 0,
            e.workerLive0 || maskNeeded e⟩

/-- The run gets past validation, decode, auto-crop and OCR, reaching the
montage loop and the encoder. -/
def reachesEncode (e : RunEnv) : Bool :=
  e.validateOk && (!needFirst e || e.decodeOk) && (!e.cropAuto || e.cropFound)
    && (!maskNeeded e || !e.ocrThrows) && !e.loopThrows

/-- Leading decimal digits of a character list, as a number; none if the
list does not start with a digit (parseInt then yields NaN). -/
def parseDigits (cs : List Char) : Option Nat :=
  match cs.takeWhile Char.isDigit with
  | [] => none
  | ds => some (ds.foldl (fun a c => 10 * a + (c.toNat - 48)) 0)

/-- parseInt(value, 10): skip leading whitespace, read an optional sign
and then leading decimal digits; no digits means NaN, embedded as none. -/
def parseIntJS (s : String) : Option Int :=
  match s.data.dropWhile (fun c => c == ' ' || c == '\t' || c == '\n' || c == '\r') with
  | '-' :: rest => (parseDigits rest).map (fun n => -(n : Int))
  | '+' :: rest => (parseDigits rest).map (fun n => (n : Int))
  | rest => (parseDigits rest).map (fun n => (n : Int))

/-- The JS expression v || 0 on a number v: NaN and 0 are falsy and give
0, every other number gives itself (revision B line 798). -/
def jsOrZero (v : Option Int) : Int :=
  match v with
  | none => 0
  | some n => if n = 0 then 0 else n

/-- The numeric settings fields, each a JS number that may be NaN
(embedded as none).  This is the view of the revision B settings record
that claim C10 is about. -/
structure NumSettings where
  colCount : Option Int
  offsetX : Option Int
  offsetY : Option Int
  quality : Option Int
  cropX : Option Int
  cropY : Option Int
  cropWidth : Option Int
  cropHeight : Option Int
  maskX : Option Int
  maskY : Option Int
  maskWidth : Option Int
  maskHeight : Option Int
  selfMaskX : Option Int
  selfMaskY : Option Int
  selfMaskWidth : Option Int
  selfMaskHeight : Option Int
deriving DecidableEq, Repr

/-- The fields edited through a TextField of type number in revision B
(lines 1202-1205, 1215-1218, 1229-1232). -/
inductive NumField
  | cropX | cropY | cropWidth | cropHeight
  | maskX | maskY | maskWidth | maskHeight
  | selfMaskX | selfMaskY | selfMaskWidth | selfMaskHeight
deriving DecidableEq, Repr

def setNum (s : NumSettings) (f : NumField) (v : Option Int) : NumSettings :=
  match f with
  | .cropX => { s with cropX := v }
  | .cropY => { s with cropY := v }
  | .cropWidth => { s with cropWidth := v }
  | .cropHeight => { s with cropHeight := v }
  | .maskX => { s with maskX := v }
  | .maskY => { s with maskY := v }
  | .maskWidth => { s with maskWidth := v }
  | .maskHeight => { s with maskHeight := v }
  | .selfMaskX => { s with selfMaskX := v }
  | .selfMaskY => { s with selfMaskY := v }
  | .selfMaskWidth => { s with selfMaskWidth := v }
  | .selfMaskHeight => { s with selfMaskHeight := v }

def getNum (s : NumSettings) (f : NumField) : Option Int :=
  match f with
  | .cropX => s.cropX
  | .cropY => s.cropY
  | .cropWidth => s.cropWidth
  | .cropHeight => s.cropHeight
  | .maskX => s.maskX
  | .maskY => s.maskY
  | .maskWidth => s.maskWidth
  | .maskHeight => s.maskHeight
  | .selfMaskX => s.selfMaskX
  | .selfMaskY => s.selfMaskY
  | .selfMaskWidth => s.selfMaskWidth
  | .selfMaskHeight => s.selfMaskHeight

/-- One settings change through the revision B handlers: a number
TextField edit goes through handleSettingChange line 798
(parseInt(value, 10) || 0); the column and offset Select components
deliver numbers directly (lines 799-800 and 1175-1189, values 1..10 and
0..50); the offset handler mirrors offsetX into offsetY (lines 805-812);
the quality Slider delivers a number (lines 820-828). -/
inductive SettingsEdit
  | numberEdit (f : NumField) (raw : String)
  | selectColCount (n : Int)
  | selectOffset (n : Int)
  | qualitySlider (n : Int)
deriving DecidableEq, Repr

/-- Revision B handleSettingChange / handleSliderChange, restricted to the
numeric fields. -/
def applyEdit (s : NumSettings) : SettingsEdit → NumSettings
  | .numberEdit f raw => setNum s f (some (jsOrZero (parseIntJS raw)))
  | .selectColCount n => { s with colCount := some n }
  | .selectOffset n => { s with offsetX := some n, offsetY := some n }
  | .qualitySlider n => { s with quality := some n }

def applyEdits (s : NumSettings) (es : List SettingsEdit) : NumSettings :=
  es.foldl applyEdit s

/-- No numeric settings field is NaN. -/
def allSomeNum (s : NumSettings) : Bool :=
  s.colCount.isSome && s.offsetX.isSome && s.offsetY.isSome && s.quality.isSome
    && s.cropX.isSome && s.cropY.isSome && s.cropWidth.isSome && s.cropHeight.isSome
    && s.maskX.isSome && s.maskY.isSome && s.maskWidth.isSome && s.maskHeight.isSome
    && s.selfMaskX.isSome && s.selfMaskY.isSome && s.selfMaskWidth.isSome
    && s.selfMaskHeight.isSome

/-- The disjunction of the isNaN sub-expressions of the revision B
pre-run validation (lines 871-880): isNaN(colCount), isNaN(offsetX),
isNaN(offsetY). -/
def nanChecksB (s : NumSettings) : Bool :=
  s.colCount.isNone || s.offsetX.isNone || s.offsetY.isNone

-- Claim statements (the properties of CLAIMS.json rendered over the
-- embedding) and the concrete inputs used to settle them.

/-- Claim C1 as stated: for every reference bitmap the detector accepts a
candidate rectangle only if it passes a plausibility filter.  Any filter
with a minimum width fraction of the source image requires some positive
fraction minFrac with minFrac * w ≤ width of every accepted rectangle;
the claim implies that such a fraction exists. -/
def claimC1 : Prop :=
  ∃ minFrac : Rat, 0 < minFrac ∧
    ∀ (img : Image) (r : Rect), performAutoCrop img = some r →
      minFrac * (img.w : Rat) ≤ (r.width : Rat)

/-- Claim C2 as stated: a mask rectangle resolved from an OCR word whose
box lies inside the crop rectangle stays within the crop rectangle or is
trivially empty relative to it, for both slots. -/
def claimC2 : Prop :=
  ∀ (crop : Rect) (wImg centerX : Int) (b : BBox), bboxInside b crop →
    (rectInside (resolveEnemyMask wImg b) crop ∨ rectTrivEmpty (resolveEnemyMask wImg b)) ∧
    (rectInside (resolveSelfMask centerX b) crop ∨ rectTrivEmpty (resolveSelfMask centerX b))

/-- Claim C4 as stated: detection failure disables the crop-auto flag and
yields no rectangle, and every successful detection has positive width
and height. -/
def claimC4 : Prop :=
  (∀ (img : Image) (s : ImageSettings), performAutoCrop img = none →
      (autoCropStep img s).1.cropAuto = false ∧ (autoCropStep img s).2 = none) ∧
  ∀ (img : Image) (r : Rect), performAutoCrop img = some r →
      0 < r.width ∧ 0 < r.height

/-- Claim C5 as stated: every run that creates an OCR engine instance
terminates it exactly once by the end of the run, on every exit path. -/
def claimC5 : Prop :=
  ∀ e : RunEnv, (runProcessImagesB e).workerCreated = true →
    (runProcessImagesB e).terminations = 1

/-- Claim C6 as stated: the serialize, deserialize, merge-over-defaults
round trip is the identity on current-schema settings, and the loader
migrates a persisted legacy boolean auto-flag into the three-way mode
enum, mapping true to ocr and false to manual.  The second part is
rendered as: loaded settings admit a mask-mode reading that maps legacy
booleans as the claim states and attains all three modes (without the
third mode being attainable the enum would not be three-way). -/
def claimC6 : Prop :=
  (∀ m : ImageSettings, mergeLoadB (serializeB m) = m) ∧
  ∃ v : ImageSettings → SpecMaskMode,
    (∀ (s : SavedSettings) (b : Bool), s.maskAuto = some b →
      v (mergeLoadB s) = (if b then SpecMaskMode.ocrMode else SpecMaskMode.manualMode)) ∧
    ∀ m : SpecMaskMode, ∃ s : SavedSettings, v (mergeLoadB s) = m

/-- Claim C8 as stated, over the two cited compositors: with both mask
slots disabled, every composited tile pixel equals the corresponding
cropped source pixel - for the revision B montage loop and for the
revision A per-image compositor (whose mask rectangle and color are
irrelevant when maskEnabled is false). -/
def claimC8 : Prop :=
  (∀ (p : MontageParams) (srcs : Nat → Nat → Nat → Color) (n bg i dx dy : Nat),
      i < n → dx < p.cropW → dy < p.cropH →
      montageNoMask p srcs n bg (tileX p i + dx) (tileY p i + dy)
        = srcs i (p.cropX + dx) (p.cropY + dy)) ∧
  ∀ (cropX cropY : Int) (src : Int → Int → Color) (x y : Int),
      tileRevA false ⟨0, 0, 0, 0⟩ 0 cropX cropY src x y = src (cropX + x) (cropY + y)

/-- Claim C9 as stated: once the run reaches the encoder, it always
produces an outcome (no silent hang), and a null blob is reported as an
encode failure. -/
def claimC9 : Prop :=
  ∀ e : RunEnv, reachesEncode e = true →
    (runProcessImagesB e).outcome ≠ none ∧
    (e.encode = EncodeBeh.callback none →
      (runProcessImagesB e).outcome = some RunOutcome.fatalEncode)

/-- The outcome reached the top-level catch (fatal path with page
reload). -/
def RunResult.fatalOutcome (r : RunResult) : Bool :=
  match r.outcome with
  | some o => o.isFatal
  | none => false

/-- A successful single-slot OCR run that creates a worker: enemy mask
auto on, everything succeeds, no worker live from an earlier run. -/
def envSuccessRun : RunEnv :=
  ⟨false, true, true, false, false, true, true, true, false, false,
   EncodeBeh.callback (some ()), false⟩

/-- A run with no auto detection whose encoder callback never fires. -/
def envEncodeHang : RunEnv :=
  ⟨false, false, false, false, false, true, true, true, false, false,
   EncodeBeh.neverFires, false⟩

/-- A run with no auto detection whose encoder yields a null blob. -/
def envEncodeNull : RunEnv :=
  ⟨false, false, false, false, false, true, true, true, false, false,
   EncodeBeh.callback none, false⟩

/-- A legacy persisted record carrying only the boolean auto-flag. -/
def legacySaved1 : SavedSettings := { maskAuto := some true }

/-- Two left-half OCR words matching the Lv pattern, one above the
other. -/
def wordLvTop : Word := ⟨"Lv.1", ⟨10, 10, 40, 30⟩⟩

def wordLvBottom : Word := ⟨"Lv.2", ⟨20, 50, 50, 70⟩⟩

/-- Two right-half OCR words matching the Lv pattern, one above the
other. -/
def wordLvRightTop : Word := ⟨"Lv.3", ⟨150, 10, 180, 30⟩⟩

def wordLvRightBottom : Word := ⟨"Lv.4", ⟨150, 50, 180, 70⟩⟩

/-- Concrete montage geometry for witnesses: crop origin (5, 6), tiles
10 x 7, two columns, gutters 3 and 4. -/
def paramsW : MontageParams := ⟨5, 6, 10, 7, 2, 3, 4⟩

/-- Concrete source bitmaps for the montage witness: image i has pixel
value 10000 i + 100 x + y. -/
def srcsW : Nat → Nat → Nat → Color := fun i x y => 10000 * i + 100 * x + y

/-- The numeric part of the revision B defaults, all fields present. -/
def numDefaults : NumSettings :=
  ⟨some 4, some 8, some 8, some 80, some 31, some 117, some 1538, some 665,
   some 0, some 0, some 100, some 100, some 0, some 0, some 100, some 100⟩

/-- A concrete edit script: a non-numeric string typed into a number
field, then an offset selection. -/
def editsW : List SettingsEdit :=
  [SettingsEdit.numberEdit NumField.cropX "abc", SettingsEdit.selectOffset 7]

-- Helper lemmas shared by the claim theorems.

lemma posX_block_le {p : MontageParams} {c1 c2 : Nat} (h : c1 < c2) :
    posX p c1 + p.cropW ≤ posX p c2 := by
  have h1 : (c1 + 1) * (p.cropW + p.offX) ≤ c2 * (p.cropW + p.offX) :=
    Nat.mul_le_mul_right _ h
  have h2 : (c1 + 1) * (p.cropW + p.offX)
      = c1 * (p.cropW + p.offX) + (p.cropW + p.offX) := by ring
  simp only [posX]
  linarith

lemma posY_block_le {p : MontageParams} {r1 r2 : Nat} (h : r1 < r2) :
    posY p r1 + p.cropH ≤ posY p r2 := by
  have h1 : (r1 + 1) * (p.cropH + p.offY) ≤ r2 * (p.cropH + p.offY) :=
    Nat.mul_le_mul_right _ h
  have h2 : (r1 + 1) * (p.cropH + p.offY)
      = r1 * (p.cropH + p.offY) + (p.cropH + p.offY) := by ring
  simp only [posY]
  linarith

/-- Tile regions are pairwise disjoint: a montage point inside two tile
regions forces the tiles to coincide. -/
lemma inTileRegion_unique {p : MontageParams} {i j x y : Nat}
    (hi : inTileRegion p i x y) (hj : inTileRegion p j x y) : i = j := by
  obtain ⟨hix, hix2, hiy, hiy2⟩ := hi
  obtain ⟨hjx, hjx2, hjy, hjy2⟩ := hj
  simp only [tileX, tileY] at *
  have hc : tileCol p i = tileCol p j := by
    rcases Nat.lt_trichotomy (tileCol p i) (tileCol p j) with h | h | h
    · have := posX_block_le (p := p) h; omega
    · exact h
    · have := posX_block_le (p := p) h; omega
  have hr : tileRow p i = tileRow p j := by
    rcases Nat.lt_trichotomy (tileRow p i) (tileRow p j) with h | h | h
    · have := posY_block_le (p := p) h; omega
    · exact h
    · have := posY_block_le (p := p) h; omega
  simp only [tileCol, tileRow] at hc hr
  calc i = p.colCount * (i / p.colCount) + i % p.colCount :=
        (Nat.div_add_mod i p.colCount).symm
    _ = p.colCount * (j / p.colCount) + j % p.colCount := by rw [hc, hr]
    _ = j := Nat.div_add_mod j p.colCount

/-- The montage pixel lemma for the no-mask branch: the pixel at offset
(dx, dy) inside the region of tile i equals the cropped pixel of source
i. -/
lemma montageNoMask_pixel (p : MontageParams) (srcs : Nat → Nat → Nat → Color)
    (bg : Color) (n i dx dy : Nat)
    (hi : i < n) (hx : dx < p.cropW) (hy : dy < p.cropH) :
    montageNoMask p srcs n bg (tileX p i + dx) (tileY p i + dy)
      = srcs i (p.cropX + dx) (p.cropY + dy) := by
  induction n with
  | zero => omega
  | succ n ih =>
      have hmem_i : inTileRegion p i (tileX p i + dx) (tileY p i + dy) := by
        unfold inTileRegion; omega
      rw [montageNoMask, List.range_succ, List.foldl_append, List.foldl_cons,
        List.foldl_nil]
      by_cases hin : i = n
      · subst hin
        simp only [blitTile, if_pos hmem_i, tileContentNoMask]
        congr 2 <;> omega
      · have hnot : ¬ inTileRegion p n (tileX p i + dx) (tileY p i + dy) :=
          fun hmem => hin (inTileRegion_unique hmem_i hmem)
        simp only [blitTile, if_neg hnot]
        exact ih (by omega)

/-- Characterization of the montage row count: ceilDiv n c is the exact
ceiling of n / c. -/
lemma ceilDiv_spec (n c : Nat) (hc : 1 ≤ c) (hn : 1 ≤ n) :
    n ≤ ceilDiv n c * c ∧ ceilDiv n c * c < n + c := by
  have h1 : c * ((n + c - 1) / c) + (n + c - 1) % c = n + c - 1 :=
    Nat.div_add_mod (n + c - 1) c
  have h2 : (n + c - 1) % c < c := Nat.mod_lt _ (by omega)
  obtain ⟨t, ht⟩ : ∃ t, c * ((n + c - 1) / c) = t := ⟨_, rfl⟩
  rw [ht] at h1
  unfold ceilDiv
  rw [Nat.mul_comm, ht]
  omega

/-- C1 counterexample: the claim that acceptance is gated by a
plausibility filter (minimum width/height fraction, aspect bound, bottom
bound) is false: on imgStep6 the detector accepts the rectangle
(3, 3, 0, 0), whose width 0 fails every positive minimum width fraction,
so no such filter gates acceptance. -/
theorem C1_counterexample : ¬ claimC1 := by
  rintro ⟨f, hf, hall⟩
  have h := hall imgStep6 ⟨3, 3, 0, 0⟩ (by decide)
  have hw : ((imgStep6.w : Nat) : Rat) = 6 := by norm_num [imgStep6]
  rw [hw] at h
  have hpos : (0 : Rat) < f * 6 := by positivity
  simp only [Rect.width] at h
  norm_num at h
  linarith

/-- C1 (amended): the detector applies no plausibility filter and no
threshold relaxation: it succeeds exactly when each of the four edge
scans, at the single fixed threshold, finds an edge, and any candidate
rectangle built from the four found edges is accepted as is. -/
theorem C1_accepts_iff_all_scans_find_edges (img : Image) :
    (performAutoCrop img).isSome ↔
      ((findHEdge img false).isSome ∧ (findHEdge img true).isSome ∧
       (findVEdge img false).isSome ∧ (findVEdge img true).isSome) := by
  unfold performAutoCrop
  cases findHEdge img false <;> cases findHEdge img true <;>
    cases findVEdge img false <;> cases findVEdge img true <;> simp

/-- C2 counterexample: the OCR-resolved mask rectangle is not clamped to
the crop rectangle.  With crop rectangle (100, 100, 200, 200), image
width 1000, center 500, and a selected word box (150, 150, 200, 170)
lying inside the crop rectangle, the enemy mask (145, 145, 855, 30)
reaches x = 1000, far beyond the crop right edge 300, and is not
trivially empty. -/
theorem C2_counterexample : ¬ claimC2 := fun h =>
  absurd (h ⟨100, 100, 200, 200⟩ 1000 500 ⟨150, 150, 200, 170⟩ (by decide))
    (by decide)

/-- C2 (amended): the resolved mask keeps the 5-pixel padding of the
selected word box vertically, and is widened horizontally to the outer
edge of the full image - the image right edge for the enemy slot and the
image center line for the self slot - with no clamping to the crop
rectangle. -/
theorem C2_mask_widened_to_image_edge (wImg centerX : Int) (b : BBox) :
    (resolveEnemyMask wImg b).x + (resolveEnemyMask wImg b).width = wImg ∧
    (resolveSelfMask centerX b).x + (resolveSelfMask centerX b).width = centerX ∧
    (resolveEnemyMask wImg b).y = b.y0 - 5 ∧
    (resolveEnemyMask wImg b).x = b.x0 - 5 ∧
    (resolveEnemyMask wImg b).height = (b.y1 - b.y0) + 10 := by
  refine ⟨?_, ?_, rfl, rfl, rfl⟩ <;> simp [resolveEnemyMask, resolveSelfMask]

/-- C3: the montage surface dimensions and the tile grid positions match
the claimed formulas; the row count is the exact ceiling of n over the
column count; every tile (plus its trailing gutter) fits inside the
surface; and with two columns the fifth tile (index 4) sits at row 2,
column 0. -/
theorem C3_montage_layout (p : MontageParams) (n : Nat)
    (hn : 1 ≤ n) (hc : 1 ≤ p.colCount) :
    montageWidth p = p.cropW * p.colCount + p.offX * (p.colCount + 1) ∧
    (n ≤ ceilDiv n p.colCount * p.colCount ∧
     ceilDiv n p.colCount * p.colCount < n + p.colCount ∧
     montageHeight p n
       = ceilDiv n p.colCount * p.cropH + p.offY * (ceilDiv n p.colCount + 1)) ∧
    (∀ i, tileX p i = p.offX + (i % p.colCount) * (p.cropW + p.offX) ∧
          tileY p i = p.offY + (i / p.colCount) * (p.cropH + p.offY)) ∧
    (∀ i, i < n →
      tileX p i + p.cropW + p.offX ≤ montageWidth p ∧
      tileY p i + p.cropH + p.offY ≤ montageHeight p n) ∧
    (p.colCount = 2 → tileRow p 4 = 2 ∧ tileCol p 4 = 0) := by
  obtain ⟨hceil1, hceil2⟩ := ceilDiv_spec n p.colCount hc hn
  refine ⟨rfl, ⟨hceil1, hceil2, rfl⟩, fun i => ⟨rfl, rfl⟩, fun i hi => ⟨?_, ?_⟩, ?_⟩
  · have hcol : i % p.colCount < p.colCount := Nat.mod_lt _ (by omega)
    have h1 : (i % p.colCount + 1) * (p.cropW + p.offX)
        ≤ p.colCount * (p.cropW + p.offX) := Nat.mul_le_mul_right _ hcol
    have h2 : (i % p.colCount + 1) * (p.cropW + p.offX)
        = i % p.colCount * (p.cropW + p.offX) + (p.cropW + p.offX) := by ring
    have h3 : p.colCount * (p.cropW + p.offX)
        = p.cropW * p.colCount + p.offX * p.colCount := by ring
    simp only [tileX, posX, tileCol, montageWidth]
    linarith
  · have hrow : i / p.colCount < ceilDiv n p.colCount := by
      rw [Nat.div_lt_iff_lt_mul (by omega)]
      omega
    have h1 : (i / p.colCount + 1) * (p.cropH + p.offY)
        ≤ ceilDiv n p.colCount * (p.cropH + p.offY) :=
      Nat.mul_le_mul_right _ hrow
    have h2 : (i / p.colCount + 1) * (p.cropH + p.offY)
        = i / p.colCount * (p.cropH + p.offY) + (p.cropH + p.offY) := by ring
    have h3 : ceilDiv n p.colCount * (p.cropH + p.offY)
        = ceilDiv n p.colCount * p.cropH + p.offY * ceilDiv n p.colCount := by
      ring
    simp only [tileY, posY, tileRow, montageHeight]
    linarith
  · intro h2
    constructor <;> simp [tileRow, tileCol, h2]

/-- C3 witness: the layout theorem applied to the concrete geometry
paramsW (two columns) and five images. -/
theorem C3_montage_layout_witness :
    (1 ≤ 5 ∧ 1 ≤ paramsW.colCount) ∧
    (paramsW.colCount = 2 → tileRow paramsW 4 = 2 ∧ tileCol paramsW 4 = 0) :=
  ⟨by decide, (C3_montage_layout paramsW 5 (by decide) (by decide)).2.2.2.2⟩

/-- C4 counterexample: the detector can succeed with a zero-size
rectangle.  On imgStep4 (one luminance step on the center row and one on
the center column) all four scans succeed but the returned rectangle is
(2, 2, 0, 0): width and height are 0, refuting the claim that every
returned rectangle has positive width and height. -/
theorem C4_counterexample : ¬ claimC4 := by
  rintro ⟨-, h⟩
  have h0 := h imgStep4 ⟨2, 2, 0, 0⟩ (by decide)
  exact absurd h0.1 (by decide)

/-- C4 (amended): when any of the four edge scans finds no edge, the
detector reports failure - no rectangle is produced and the crop-auto
flag is disabled - but a successful detection may return a rectangle of
zero (or negative) width or height. -/
theorem C4_scan_failure_reports_and_disables (img : Image) (s : ImageSettings)
    (h : findHEdge img false = none ∨ findHEdge img true = none ∨
         findVEdge img false = none ∨ findVEdge img true = none) :
    (autoCropStep img s).1.cropAuto = false ∧ (autoCropStep img s).2 = none := by
  have hnone : performAutoCrop img = none := by
    unfold performAutoCrop
    cases hA : findHEdge img false <;> cases hB : findHEdge img true <;>
      cases hC : findVEdge img false <;> cases hD : findVEdge img true <;>
      simp_all
  simp [autoCropStep, hnone]

/-- C4 witness: on the constant bitmap imgFlat3 the left scan finds no
edge and the step disables cropAuto without producing a rectangle. -/
theorem C4_scan_failure_witness :
    findHEdge imgFlat3 false = none ∧
    (autoCropStep imgFlat3 defaultsB).1.cropAuto = false ∧
    (autoCropStep imgFlat3 defaultsB).2 = none := by
  refine ⟨by decide, ?_⟩
  exact C4_scan_failure_reports_and_disables imgFlat3 defaultsB (Or.inl (by decide))

/-- C5 counterexample: a successful OCR run creates a worker and never
terminates it.  On envSuccessRun (enemy mask auto, everything succeeds)
the run creates the worker and the termination count at the end of the
run is 0, not 1: the latest revision parks the worker in workerRef for
reuse across runs. -/
theorem C5_counterexample : ¬ claimC5 := fun h =>
  absurd (h envSuccessRun (by decide)) (by decide)

/-- C5 (amended): within one run, worker.terminate is called exactly once
when a fatal error reaches the top-level catch while a worker is live
(whether created in this run or left over from an earlier one), and zero
times otherwise; on every non-fatal exit path the worker survives the run
in workerRef, and is torn down only by a later fatal run or the unmount
effect. -/
theorem C5_terminate_only_on_fatal (e : RunEnv) :
    (runProcessImagesB e).terminations
      = (if (runProcessImagesB e).fatalOutcome
            && (e.workerLive0 || (runProcessImagesB e).workerCreated)
         then 1 else 0) ∧
    (runProcessImagesB e).workerLiveAfter
      = (!(runProcessImagesB e).fatalOutcome
          && (e.workerLive0 || (runProcessImagesB e).workerCreated)) := by
  rcases he : e.encode with b | _
  · rcases b with _ | b <;>
      · simp only [runProcessImagesB, RunResult.fatalOutcome, RunOutcome.isFatal, he]
        split_ifs <;> (try simp_all) <;> cases e.workerLive0 <;> simp_all
  · simp only [runProcessImagesB, RunResult.fatalOutcome, RunOutcome.isFatal, he]
    split_ifs <;> (try simp_all) <;> cases e.workerLive0 <;> simp_all

/-- C6 counterexample: the loader performs no migration into a three-way
mode enum.  No reading of the loaded settings can both map the legacy
boolean as the claim states and attain the ratio mode: if some loaded
value read as ratio existed, re-serializing and re-loading it (identity
by the round-trip part) would present its boolean maskAuto field, forcing
the reading to ocr or manual - a boolean field cannot encode a third
state.  No revision of the source declares a mode field at all. -/
theorem C6_counterexample : ¬ claimC6 := by
  rintro ⟨hrt, v, hleg, hsur⟩
  obtain ⟨s0, h0⟩ := hsur SpecMaskMode.ratioMode
  have h1 : (serializeB (mergeLoadB s0)).maskAuto
      = some (mergeLoadB s0).maskAuto := rfl
  have h2 := hleg (serializeB (mergeLoadB s0)) (mergeLoadB s0).maskAuto h1
  rw [hrt (mergeLoadB s0), h0] at h2
  cases hb : (mergeLoadB s0).maskAuto <;> rw [hb] at h2 <;>
    exact absurd h2 (by decide)

/-- C6 (amended): serialize, deserialize and merge over defaults is the
identity on every current-schema settings value, and the legacy boolean
auto-flags are loaded unchanged as booleans - no migration into a mode
enum happens, and no mode field exists in any revision of the schema. -/
theorem C6_roundtrip_and_flag_passthrough :
    (∀ m : ImageSettings, mergeLoadB (serializeB m) = m) ∧
    (∀ (s : SavedSettings) (b : Bool), s.maskAuto = some b →
      (mergeLoadB s).maskAuto = b) ∧
    (∀ (s : SavedSettings) (b : Bool), s.cropAuto = some b →
      (mergeLoadB s).cropAuto = b) := by
  refine ⟨fun m => rfl, fun s b h => ?_, fun s b h => ?_⟩ <;>
    simp [mergeLoadB, h]

/-- C6 witness: loading a legacy record that carries only maskAuto = true
yields settings whose maskAuto boolean is still true. -/
theorem C6_roundtrip_witness :
    legacySaved1.maskAuto = some true ∧
    (mergeLoadB legacySaved1).maskAuto = true ∧
    mergeLoadB (serializeB defaultsB) = defaultsB :=
  ⟨rfl, C6_roundtrip_and_flag_passthrough.2.1 legacySaved1 true rfl,
   C6_roundtrip_and_flag_passthrough.1 defaultsB⟩

/-- C7: evaluation at the failing input.  Among two left-half words
matching the Lv pattern with y0 = 10 and y0 = 50, the part 002 self-slot
selector returns the bottommost word (y0 = 50), while the claim demands
the topmost; the enemy-slot selector of the same revision and the
self-slot selector of the latest revision both return the topmost word
(y0 = 10), so the flipped comparison in part 002 line 397 is a slip that
the next revision fixes. -/
theorem C7_part002_self_slot_picks_bottommost :
    selfTarget002 [wordLvTop, wordLvBottom] 200 = some wordLvBottom ∧
    selfTargetB [wordLvTop, wordLvBottom] 100 = some wordLvTop ∧
    enemyTarget002 [wordLvRightTop, wordLvRightBottom] 200 400
      = some wordLvRightTop ∧
    enemyTargetB [wordLvRightTop, wordLvRightBottom] 100
      = some wordLvRightTop := by
  decide

/-- C8 counterexample: the revision A compositor paints a fixed
decoration rectangle on every tile even with every mask disabled.  With
the default crop origin (31, 117) and an all-black source, the tile pixel
at (1277, 92) - inside the fixed rectangle - equals the fixed fill color
0xffe1d8, not the cropped source pixel. -/
theorem C8_counterexample : ¬ claimC8 := by
  rintro ⟨-, h⟩
  have h1 := h 31 117 (fun _ _ => 0) 1277 92
  have h2 : tileRevA false ⟨0, 0, 0, 0⟩ 0 31 117 (fun _ _ => 0) 1277 92
      = 0xffe1d8 := by decide
  rw [h2] at h1
  exact absurd h1 (by decide)

/-- C8 (amended): in the latest revision, with both mask slots disabled,
every pixel inside the region of tile i on the montage equals the
corresponding cropped pixel of source i - no fill rectangle of any kind
is painted.  (The revision A compositor instead always paints its fixed
decoration rectangle, see the counterexample.) -/
theorem C8_nomask_tile_pixels_are_cropped_source (p : MontageParams)
    (srcs : Nat → Nat → Nat → Color) (n bg i dx dy : Nat)
    (hi : i < n) (hx : dx < p.cropW) (hy : dy < p.cropH) :
    montageNoMask p srcs n bg (tileX p i + dx) (tileY p i + dy)
      = srcs i (p.cropX + dx) (p.cropY + dy) :=
  montageNoMask_pixel p srcs bg n i dx dy hi hx hy

/-- C8 witness: the montage pixel theorem evaluated on the concrete
geometry paramsW with five images, tile 4, offset (2, 3). -/
theorem C8_nomask_witness :
    (4 < 5 ∧ 2 < paramsW.cropW ∧ 3 < paramsW.cropH) ∧
    montageNoMask paramsW srcsW 5 9 (tileX paramsW 4 + 2) (tileY paramsW 4 + 3)
      = srcsW 4 (paramsW.cropX + 2) (paramsW.cropY + 3) :=
  ⟨by decide, C8_nomask_tile_pixels_are_cropped_source paramsW srcsW 5 9 4 2 3
    (by decide) (by decide) (by decide)⟩

/-- C9 counterexample: there is no encode timeout.  On envEncodeHang the
run reaches the encoder and the toBlob callback never fires; the awaited
promise never settles, so the run has no outcome at all - it hangs
instead of failing. -/
theorem C9_counterexample : ¬ claimC9 := fun h =>
  absurd (h envEncodeHang (by decide)).1 (by decide)

/-- C9 (amended): encoding is awaited with no timer: once the run reaches
the encoder, it hangs exactly when the callback never fires; a null blob
aborts the run with a reported encode error, and a blob yields success. -/
theorem C9_encode_no_timeout (e : RunEnv) (h : reachesEncode e = true) :
    ((runProcessImagesB e).outcome = none ↔ e.encode = EncodeBeh.neverFires) ∧
    (e.encode = EncodeBeh.callback none →
      (runProcessImagesB e).outcome = some RunOutcome.fatalEncode) ∧
    (∀ b : Blob, e.encode = EncodeBeh.callback (some b) →
      (runProcessImagesB e).outcome = some RunOutcome.runSuccess) := by
  simp only [reachesEncode, Bool.and_eq_true, Bool.not_eq_true'] at h
  obtain ⟨⟨⟨⟨hv, hd⟩, hcf⟩, ho⟩, hl⟩ := h
  have h2 : (needFirst e && !e.decodeOk) = false := by
    cases hnf : needFirst e <;> simp_all
  have h3 : (e.cropAuto && !e.cropFound) = false := by
    cases hca : e.cropAuto <;> simp_all
  have h4 : (maskNeeded e && e.ocrThrows) = false := by
    cases hmn : maskNeeded e <;> simp_all
  simp only [runProcessImagesB, hv, h2, h3, h4, hl, Bool.not_true,
    Bool.false_eq_true, if_false]
  rcases he : e.encode with b | _
  · rcases b with _ | b <;> simp
  · simp

/-- C9 witness: on the concrete environments, a null blob yields the
encode-failure outcome and a never-firing callback yields no outcome. -/
theorem C9_encode_witness :
    reachesEncode envEncodeNull = true ∧
    (runProcessImagesB envEncodeNull).outcome = some RunOutcome.fatalEncode ∧
    (runProcessImagesB envEncodeHang).outcome = none :=
  ⟨by decide, (C9_encode_no_timeout envEncodeNull (by decide)).2.1 rfl,
   (C9_encode_no_timeout envEncodeHang (by decide)).1.mpr rfl⟩

lemma allSomeNum_applyEdit (s : NumSettings) (e : SettingsEdit)
    (h : allSomeNum s = true) : allSomeNum (applyEdit s e) = true := by
  cases e with
  | numberEdit f raw => cases f <;> simp_all [applyEdit, setNum, allSomeNum]
  | selectColCount n => simp_all [applyEdit, allSomeNum]
  | selectOffset n => simp_all [applyEdit, allSomeNum]
  | qualitySlider n => simp_all [applyEdit, allSomeNum]

/-- C10: starting from numeric settings with no NaN field, any sequence
of edits through the revision B handlers leaves every numeric field a
number (never NaN), so the isNaN branches of the pre-run validation can
never fire on handler-produced settings; and typing an empty (or
non-numeric) value into a number field stores 0. -/
theorem C10_numeric_edits_never_nan (s : NumSettings) (es : List SettingsEdit)
    (h : allSomeNum s = true) :
    allSomeNum (applyEdits s es) = true ∧
    nanChecksB (applyEdits s es) = false ∧
    (∀ (s2 : NumSettings) (f : NumField),
      getNum (applyEdit s2 (SettingsEdit.numberEdit f "")) f = some 0) := by
  have hall : allSomeNum (applyEdits s es) = true := by
    unfold applyEdits
    induction es generalizing s with
    | nil => exact h
    | cons a l ih => exact ih _ (allSomeNum_applyEdit s a h)
  refine ⟨hall, ?_, ?_⟩
  · cases hc : (applyEdits s es).colCount <;>
      cases hx : (applyEdits s es).offsetX <;>
      cases hy : (applyEdits s es).offsetY <;>
      simp_all [nanChecksB, allSomeNum]
  · intro s2 f
    cases f <;> rfl

/-- C10 witness: from the default numeric settings, a non-numeric entry
into the crop-x field followed by an offset selection leaves every field
a number and the isNaN checks all false. -/
theorem C10_numeric_edits_witness :
    allSomeNum numDefaults = true ∧
    allSomeNum (applyEdits numDefaults editsW) = true ∧
    nanChecksB (applyEdits numDefaults editsW) = false :=
  ⟨by decide, (C10_numeric_edits_never_nan numDefaults editsW (by decide)).1,
   (C10_numeric_edits_never_nan numDefaults editsW (by decide)).2.1⟩
